import Mathlib

/-!
Shallow embedding of the sensor-match and record-construction engine of
rtlToChords.py (the current source, which is the authority for every claim).

Conventions of the embedding:
* A decoded JSON value is a JValue; a decoded JSON object (dict with string
  keys, unique, in insertion order) is an Obj.
* Python comparison (the == and != operators) on decoded JSON values is
  pyEq: numbers compare numerically across int/float/bool, strings compare
  as strings, lists pointwise, dicts as finite maps (key order irrelevant).
* Fallible Python code (statements that can raise an uncaught exception,
  such as KeyError from sensor["model"] or TypeError from indexing a
  non-dict) is embedded with Except String; Except.error means the Python
  call raises and the exception propagates to the caller.
* time.time() is injected as an integer parameter `now` (one call per
  handleRtlData invocation); datetime.fromisoformat(...).timestamp() is
  modelled by parseIso8601 for naive YYYY-MM-DDTHH:MM:SS strings with the
  process local timezone taken to be UTC.
* The outbound calls tochords.buildURI / tochords.submitURI are external
  collaborators; a submission is modelled as the chords_record dictionary
  that sendToChords builds and hands to them.
-/

namespace RtlToChords

/-- A decoded JSON value, as produced by Python json.loads: null, bool,
number (int and float collapsed into an exact rational), string, array,
object (insertion-ordered association list with string keys). -/
inductive JValue where
  | jnull
  | jbool (b : Bool)
  | jnum (q : ℚ)
  | jstr (s : String)
  | jarr (xs : List JValue)
  | jobj (kvs : List (String × JValue))

/-- A decoded JSON object (a Python dict with string keys). -/
abbrev Obj := List (String × JValue)

/-- Python dict key lookup d[k] / membership k in d, for string keys.
Decoded JSON objects have unique keys; lookup takes the first binding. -/
def jlookup (k : String) : Obj → Option JValue
  | [] => none
  | (k1, v) :: rest => if k1 = k then some v else jlookup k rest

/-- The numeric value of a Python bool (bool is a subclass of int:
True == 1 and False == 0). -/
def pyNumOfBool (b : Bool) : ℚ := if b then 1 else 0

mutual

/-- Python == on decoded JSON values: None equals only None; bools and
numbers compare numerically; strings compare as strings; lists compare
pointwise; dicts compare as finite maps (same size, and every key of the
left dict is present in the right with an equal value — key order
irrelevant, unique keys assumed as json.loads guarantees). -/
def pyEq : JValue → JValue → Bool
  | .jnull, .jnull => true
  | .jbool a, .jbool b => a == b
  | .jbool a, .jnum q => pyNumOfBool a == q
  | .jnum q, .jbool b => q == pyNumOfBool b
  | .jnum a, .jnum b => a == b
  | .jstr a, .jstr b => a == b
  | .jarr xs, .jarr ys => pyEqList xs ys
  | .jobj a, .jobj b => a.length == b.length && pyEqObjSub a b
  | _, _ => false

/-- Pointwise Python == on lists of equal length. -/
def pyEqList : List JValue → List JValue → Bool
  | [], [] => true
  | x :: xs, y :: ys => pyEq x y && pyEqList xs ys
  | _, _ => false

/-- Every key of the first object is bound in the second to a pyEq-equal
value. -/
def pyEqObjSub : Obj → Obj → Bool
  | [], _ => true
  | (k, v) :: rest, b =>
    (match jlookup k b with
     | some w => pyEq v w
     | none => false) && pyEqObjSub rest b

end

/-- Python truthiness bool(v) of a decoded JSON value: None, False, 0,
empty string, empty list, empty dict are falsy; everything else truthy. -/
def pyTruthy : JValue → Bool
  | .jnull => false
  | .jbool b => b
  | .jnum q => q != 0
  | .jstr s => !s.isEmpty
  | .jarr xs => !xs.isEmpty
  | .jobj kvs => !kvs.isEmpty

/-- Python iteration over a value (for x in v): a list yields its elements,
a string yields its characters as one-character strings, a dict yields its
keys; other values raise TypeError (none). -/
def pyIter : JValue → Option (List JValue)
  | .jarr xs => some xs
  | .jstr s => some (s.toList.map fun c => .jstr (String.singleton c))
  | .jobj kvs => some (kvs.map fun kv => .jstr kv.1)
  | _ => none

/-- Whether a decoded JSON value is hashable in Python (usable as a dict
key or in a membership test): lists and dicts are not. -/
def hashable : JValue → Bool
  | .jarr _ => false
  | .jobj _ => false
  | _ => true

/-- A Python dict with arbitrary (decoded JSON) keys, insertion-ordered:
the vars dictionary that handleRtlData builds and the vars field of the
chords record. -/
abbrev PyDict := List (JValue × JValue)

/-- Python dict assignment d[k] = v: replace the value in place if a
pyEq-equal key exists, else append the new binding. -/
def dictSet (m : PyDict) (k v : JValue) : PyDict :=
  if m.any fun p => pyEq p.1 k then
    m.map fun p => if pyEq p.1 k then (p.1, v) else p
  else m ++ [(k, v)]

/-- Leap year test of the proleptic Gregorian calendar (Python
datetime). -/
def isLeap (y : ℕ) : Bool := (y % 4 == 0 && y % 100 != 0) || y % 400 == 0

/-- Number of days in a month (1..12) of a given year. -/
def daysInMonth (y m : ℕ) : ℕ :=
  if m = 2 then (if isLeap y then 29 else 28)
  else if m = 4 || m = 6 || m = 9 || m = 11 then 30
  else 31

/-- Days in the months strictly before month m (1..12) of year y. -/
def daysBeforeMonth (y m : ℕ) : ℕ :=
  (List.range (m - 1)).foldl (fun acc i => acc + daysInMonth y (i + 1)) 0

/-- Days in the years strictly before year y (proleptic Gregorian,
counting from year 1). -/
def daysBeforeYear (y : ℕ) : ℕ :=
  365 * (y - 1) + (y - 1) / 4 - (y - 1) / 100 + (y - 1) / 400

/-- Python date(y, m, d).toordinal(): day number with 0001-01-01 as
day 1. -/
def toOrdinal (y m d : ℕ) : ℕ := daysBeforeYear y + daysBeforeMonth y m + d

/-- Split a character list on a separator character (like
String.splitOn with a one-character separator). -/
def splitOnChar (c : Char) : List Char → List (List Char)
  | [] => [[]]
  | x :: xs =>
    match splitOnChar c xs with
    | [] => [[x]]
    | g :: gs => if x = c then [] :: g :: gs else (x :: g) :: gs

/-- Parse a non-empty all-digit character list as a decimal number. -/
def parseField : List Char → ℕ → Option ℕ
  | [], acc => some acc
  | c :: cs, acc =>
    if c.isDigit then parseField cs (acc * 10 + (c.toNat - 48)) else none

/-- A decimal field of an ISO timestamp: non-empty and all digits. -/
def parseFieldNE (l : List Char) : Option ℕ :=
  if l.isEmpty then none else parseField l 0

/-- Modelled behaviour of
datetime.datetime.fromisoformat(s).timestamp() for naive strings of the
form YYYY-MM-DDTHH:MM:SS, with the process local timezone taken to be
UTC: epoch seconds of the given civil time, none when the string does not
parse (fromisoformat raises). 719163 is date(1970, 1, 1).toordinal().
Other input forms that CPython would accept (fractional seconds, offsets,
date-only strings) are outside the modelled input space. -/
def parseIso8601 (s : String) : Option Int :=
  match splitOnChar 'T' s.toList with
  | [ds, ts] =>
    match splitOnChar '-' ds, splitOnChar ':' ts with
    | [ys, ms, dds], [hs, mis, ss] =>
      match parseFieldNE ys, parseFieldNE ms, parseFieldNE dds,
            parseFieldNE hs, parseFieldNE mis, parseFieldNE ss with
      | some y, some m, some d, some h, some mi, some sec =>
        if 1 ≤ y && y ≤ 9999 && 1 ≤ m && m ≤ 12 && 1 ≤ d &&
            d ≤ daysInMonth y m && h ≤ 23 && mi ≤ 59 && sec ≤ 59 then
          some (((toOrdinal y m d : Int) - 719163) * 86400
                + h * 3600 + mi * 60 + sec)
        else none
      | _, _, _, _, _, _ => none
    | _, _ => none
  | _ => none

/-- The chords_record dictionary that sendToChords builds and hands to
tochords.buildURI / tochords.submitURI, together with the host it is
addressed to. -/
structure ChordsRecord where
  host : JValue
  inst_id : JValue
  api_email : JValue
  api_key : JValue
  vars : PyDict

/-- sendToChords(config, timestamp, vars, chords_inst_override):
builds the chords record. inst_id starts as config["instrument_id"]
(KeyError if absent, even when an override is given) and is replaced by
the override only when the override is truthy (Python: if
chords_inst_override:). The vars dict starts as the single binding
at = int(timestamp) and is then updated with the extracted vars. The
config keys are read in source order: instrument_id, api_email, api_key,
chords_host. -/
def sendToChords (config : Obj) (timestamp : Int) (vars : PyDict)
    (chords_inst_override : Option JValue) : Except String ChordsRecord :=
  match jlookup "instrument_id" config with
  | none => .error "KeyError: instrument_id"
  | some gid =>
    let inst : JValue :=
      match chords_inst_override with
      | some ov => if pyTruthy ov then ov else gid
      | none => gid
    match jlookup "api_email" config with
    | none => .error "KeyError: api_email"
    | some em =>
      match jlookup "api_key" config with
      | none => .error "KeyError: api_key"
      | some key =>
        let recVars :=
          vars.foldl (fun acc kv => dictSet acc kv.1 kv.2)
            [(JValue.jstr "at", JValue.jnum (timestamp : ℚ))]
        match jlookup "chords_host" config with
        | none => .error "KeyError: chords_host"
        | some h =>
          .ok { host := h, inst_id := inst, api_email := em,
                api_key := key, vars := recVars }

/-- The inner loop of handleRtlData over sensor["variables"]: for each
variable, read variable["chords_short_name"] (KeyError if absent), then
test variable["rtl_name"] not in data (KeyError if rtl_name absent;
TypeError if its value is an unhashable list or dict; a hashable
non-string value is simply never a key of a decoded JSON object, so the
variable is skipped with a warning); when the source field is present,
vars[chords_short_name] = data[rtl_name] (TypeError if the short name is
unhashable). A variable that is not a dict raises TypeError when
indexed. -/
def extractVars (data : Obj) : List JValue → PyDict → Except String PyDict
  | [], acc => .ok acc
  | v :: rest, acc =>
    match v with
    | .jobj vbl =>
      match jlookup "chords_short_name" vbl with
      | none => .error "KeyError: chords_short_name"
      | some csn =>
        match jlookup "rtl_name" vbl with
        | none => .error "KeyError: rtl_name"
        | some rn =>
          match rn with
          | .jstr s =>
            match jlookup s data with
            | none => extractVars data rest acc
            | some value =>
              if hashable csn then extractVars data rest (dictSet acc csn value)
              else .error "TypeError: unhashable key"
          | _ =>
            if hashable rn then extractVars data rest acc
            else .error "TypeError: unhashable"
    | _ => .error "TypeError: variable is not a dict"

/-- The for sensor in config["smart_sensors"] loop of handleRtlData, with
dm = data["model"] and di = data["id"] (both present, checked by the
caller). For each sensor: sensor["model"] != data["model"] or
sensor["id"] != data["id"] continues to the next sensor (short-circuit:
sensor["id"] is only read when the model compares equal; a missing key
raises KeyError, a non-dict sensor raises TypeError). On the first match:
iterate sensor["variables"] (KeyError if absent, TypeError if not
iterable), extract the vars, and if the vars dict is non-empty call
sendToChords with override sensor["chords_inst_id"] when that key is
present; then break — later sensors are never examined. -/
def scanSensors (config : Obj) (ts : Int) (data : Obj) (dm di : JValue) :
    List JValue → Except String (Option ChordsRecord)
  | [] => .ok none
  | s :: rest =>
    match s with
    | .jobj sensor =>
      match jlookup "model" sensor with
      | none => .error "KeyError: model"
      | some sm =>
        if pyEq sm dm = false then scanSensors config ts data dm di rest
        else
          match jlookup "id" sensor with
          | none => .error "KeyError: id"
          | some sid =>
            if pyEq sid di = false then scanSensors config ts data dm di rest
            else
              match jlookup "variables" sensor with
              | none => .error "KeyError: variables"
              | some vsv =>
                match pyIter vsv with
                | none => .error "TypeError: variables not iterable"
                | some vs =>
                  match extractVars data vs [] with
                  | .error e => .error e
                  | .ok vars =>
                    if vars.isEmpty then .ok none
                    else
                      match sendToChords config ts vars
                          (jlookup "chords_inst_id" sensor) with
                      | .error e => .error e
                      | .ok rec => .ok (some rec)
    | _ => .error "TypeError: sensor is not a dict"

/-- handleRtlData(config, data) with time.time() injected as now: return
immediately (no scan, nothing submitted) when "model" or "id" is missing
from data; resolve the timestamp from data["time"] when it is a parseable
ISO string, falling back to now on a missing time key, an unparsable
string, or a non-string value (fromisoformat raises, caught); then scan
config["smart_sensors"] (KeyError if absent, TypeError if not iterable).
The result is none when nothing was submitted, some record when
sendToChords ran. -/
def handleRtlData (config : Obj) (now : Int) (data : Obj) :
    Except String (Option ChordsRecord) :=
  match jlookup "model" data, jlookup "id" data with
  | some dm, some di =>
    let timestamp : Int :=
      match jlookup "time" data with
      | some (.jstr s) => (parseIso8601 s).getD now
      | some _ => now
      | none => now
    (match jlookup "smart_sensors" config with
     | none => .error "KeyError: smart_sensors"
     | some v =>
       match pyIter v with
       | none => .error "TypeError: smart_sensors not iterable"
       | some sensors => scanSensors config timestamp data dm di sensors)
  | _, _ => .ok none

/-- Module-level initial value of the global previous_rtl_data: the empty
dict. -/
def initial_previous_rtl_data : Obj := []

/-- What forwardFromStream did with one input line. -/
inductive Outcome where
  | decodeFail
  | duplicate
  | ran (result : Except String (Option ChordsRecord))

/-- One iteration of the forwardFromStream loop, on the decode result of
one line (none: json.loads raised JSONDecodeError, caught and logged, the
loop continues and previous_rtl_data is untouched because the assignment
sits after the decode inside the try block). For a decoded reading: when
data != previous_rtl_data is false the reading is discarded as a
duplicate and previous_rtl_data = data still runs; otherwise
handleRtlData runs, and previous_rtl_data = data runs after it — unless
handleRtlData raised (only JSONDecodeError is caught, so any other
exception skips the assignment and propagates, aborting the loop).
Returns the new previous_rtl_data and the outcome. -/
def stepLine (config : Obj) (now : Int) (prev : Obj) (line : Option Obj) :
    Obj × Outcome :=
  match line with
  | none => (prev, .decodeFail)
  | some data =>
    if pyEq (.jobj data) (.jobj prev) then (data, .duplicate)
    else
      match handleRtlData config now data with
      | .error e => (prev, .ran (.error e))
      | .ok r => (data, .ran (.ok r))

/-- forwardFromStream over a list of decode results, starting from a given
previous_rtl_data: returns the final previous_rtl_data, the list of
submitted chords records in order, and some error when an uncaught
exception aborted the loop (the remaining lines are then never read). -/
def processLines (config : Obj) (now : Int) (prev : Obj) :
    List (Option Obj) → Obj × List ChordsRecord × Option String
  | [] => (prev, [], none)
  | line :: rest =>
    match stepLine config now prev line with
    | (p, .decodeFail) => processLines config now p rest
    | (p, .duplicate) => processLines config now p rest
    | (p, .ran (.error e)) => (p, [], some e)
    | (p, .ran (.ok r)) =>
      match processLines config now p rest with
      | (pEnd, subs, err) =>
        (pEnd, (match r with | some rec => [rec] | none => []) ++ subs, err)

/-- The per-sensor test of the validate_config loop: the checks that are
actually reachable are the presence of the keys "model", "id" and
"variables" (the membership tests of lines 142); a non-dict sensor is
modelled as failing. -/
def sensorHasRequiredKeys (sensor : JValue) : Bool :=
  match sensor with
  | .jobj kvs =>
    (jlookup "model" kvs).isSome && (jlookup "id" kvs).isSome &&
      (jlookup "variables" kvs).isSome
  | _ => false

/-- validate_config(config): true when the function returns normally,
false when it calls sys.exit(1) (or dies on an uncaught TypeError from
len/iteration of a non-sized value, also a process-terminating non-zero
exit). The checks actually executed are: "smart_sensors" in config, the
sensor list non-empty, and for every sensor the presence of the keys
"model", "id" and "variables". Everything after the sys.exit(1) inside
that if-block — including the per-variable checks of "chords_short_name"
and "rtl_name" — is unreachable dead code in the source and therefore
absent here; no "enabled" key is ever examined. A sensor entry that is
not a dict is modelled as a validation failure (Python would run a
substring or element membership test on a str or list sensor and raise
TypeError on anything else; configurations of interest have dict
sensors). -/
def validate_config (config : Obj) : Bool :=
  match jlookup "smart_sensors" config with
  | none => false
  | some v =>
    match pyIter v with
    | none => false
    | some ss =>
      if ss.isEmpty then false
      else ss.all sensorHasRequiredKeys

/-- The loop condition that makes handleRtlData continue past a sensor:
the sensor is a dict, its "model" value is present and differs from the
reading's, or its model compares equal and its "id" value is present and
differs (short-circuit: the id is only read when the model matched). -/
def sensorSkips (dm di : JValue) (s : JValue) : Bool :=
  match s with
  | .jobj sensor =>
    match jlookup "model" sensor with
    | none => false
    | some sm =>
      if pyEq sm dm = false then true
      else
        match jlookup "id" sensor with
        | none => false
        | some sid => !(pyEq sid di)
  | _ => false

/-- The first-match condition of the handleRtlData loop: the sensor is a
dict whose "model" and "id" values are both present and compare
Python-equal to the reading's model and id. -/
def sensorMatches (dm di : JValue) (s : JValue) : Bool :=
  match s with
  | .jobj sensor =>
    match jlookup "model" sensor, jlookup "id" sensor with
    | some sm, some sid => pyEq sm dm && pyEq sid di
    | _, _ => false
  | _ => false

/-- A variable mapping on which the extraction loop cannot raise: a dict
with a present, hashable "chords_short_name" and a string "rtl_name". -/
def wellFormedVar (v : JValue) : Bool :=
  match v with
  | .jobj vbl =>
    (match jlookup "chords_short_name" vbl with
     | some csn => hashable csn
     | none => false) &&
    (match jlookup "rtl_name" vbl with
     | some (.jstr _) => true
     | _ => false)
  | _ => false

/-- The variable mapping's source field names a key of the reading. -/
def varSourcePresent (data : Obj) (v : JValue) : Bool :=
  match v with
  | .jobj vbl =>
    match jlookup "rtl_name" vbl with
    | some (.jstr s) => (jlookup s data).isSome
    | _ => false
  | _ => false

/-- The top-level configuration keys that sendToChords reads. -/
def wellFormedSendConfig (config : Obj) : Bool :=
  (jlookup "instrument_id" config).isSome &&
    (jlookup "api_email" config).isSome &&
    (jlookup "api_key" config).isSome &&
    (jlookup "chords_host" config).isSome

/-- A sensor definition on which the matching loop cannot raise: a dict
with model and id present and a list of well-formed variable mappings. -/
def wellFormedSensor (s : JValue) : Bool :=
  match s with
  | .jobj sensor =>
    (jlookup "model" sensor).isSome &&
      (jlookup "id" sensor).isSome &&
      (match jlookup "variables" sensor with
       | some (.jarr vs) => vs.all wellFormedVar
       | _ => false)
  | _ => false

/-- A configuration on which handleRtlData cannot raise on any reading:
the submission keys exist and smart_sensors is a list of well-formed
sensors. -/
def wellFormedConfig (config : Obj) : Bool :=
  wellFormedSendConfig config &&
    (match jlookup "smart_sensors" config with
     | some (.jarr ss) => ss.all wellFormedSensor
     | _ => false)

/-- The keys of an association list are pairwise distinct (as for every
dict produced by json.loads). -/
def keysNodup : List (String × JValue) → Bool
  | [] => true
  | (k, _) :: rest => !(rest.any fun p => p.1 = k) && keysNodup rest

mutual

/-- Every object nested in the value has pairwise-distinct keys; true of
every value produced by json.loads. -/
def uniqueKeys : JValue → Bool
  | .jarr xs => uniqueKeysList xs
  | .jobj kvs => keysNodup kvs && uniqueKeysVals kvs
  | _ => true

/-- uniqueKeys on every element. -/
def uniqueKeysList : List JValue → Bool
  | [] => true
  | x :: xs => uniqueKeys x && uniqueKeysList xs

/-- uniqueKeys on every bound value. -/
def uniqueKeysVals : List (String × JValue) → Bool
  | [] => true
  | (_, v) :: rest => uniqueKeys v && uniqueKeysVals rest

end

section Fixtures

/-- Spec section 8 example reading: model X, id 1, temperature 21.5,
time 2024-01-01T00:00:00. -/
def data7 : Obj :=
  [("model", .jstr "X"), ("id", .jnum 1), ("temperature", .jnum (mkRat 43 2)),
   ("time", .jstr "2024-01-01T00:00:00")]

/-- Spec section 8 example sensor: matches model X, id 1, one variable
mapping temperature to tempC. -/
def sensor7 : Obj :=
  [("model", .jstr "X"), ("id", .jnum 1),
   ("variables", .jarr [.jobj [("rtl_name", .jstr "temperature"),
                               ("chords_short_name", .jstr "tempC")]])]

/-- A complete configuration holding sensor7 as its only sensor. -/
def config7 : Obj :=
  [("chords_host", .jstr "host"), ("api_email", .jstr "email"),
   ("api_key", .jstr "key"), ("instrument_id", .jnum 42),
   ("smart_sensors", .jarr [.jobj sensor7])]

/-- The record that processing data7 against config7 submits. -/
def rec7 : ChordsRecord :=
  { host := .jstr "host", inst_id := .jnum 42, api_email := .jstr "email",
    api_key := .jstr "key",
    vars := [(.jstr "at", .jnum 1704067200), (.jstr "tempC", .jnum (mkRat 43 2))] }

/-- A sensor whose model matches nothing below: used as a skipped
catalogue prefix. -/
def sensorOther : Obj :=
  [("model", .jstr "Y"), ("id", .jnum 9),
   ("variables", .jarr [.jobj [("rtl_name", .jstr "temperature"),
                               ("chords_short_name", .jstr "tempC")]])]

/-- A sensor matching model X, id 1 whose single variable names a source
field absent from data7, so it extracts zero variables. -/
def sensorZeroVars : Obj :=
  [("model", .jstr "X"), ("id", .jnum 1),
   ("variables", .jarr [.jobj [("rtl_name", .jstr "absent_field"),
                               ("chords_short_name", .jstr "x")]])]

/-- A sensor that is explicitly disabled (enabled false) and matches
model X, id 1 with the temperature variable. -/
def sensorC2 : Obj := ("enabled", .jbool false) :: sensor7

/-- config7 with the disabled sensorC2 as its only sensor. -/
def configC2 : Obj :=
  [("chords_host", .jstr "host"), ("api_email", .jstr "email"),
   ("api_key", .jstr "key"), ("instrument_id", .jnum 42),
   ("smart_sensors", .jarr [.jobj sensorC2])]

/-- A sensor matching model X, id 1 whose chords_inst_id key is present
with the falsy value 0. -/
def sensorC9 : Obj :=
  [("model", .jstr "X"), ("id", .jnum 1), ("chords_inst_id", .jnum 0),
   ("variables", .jarr [.jobj [("rtl_name", .jstr "temperature"),
                               ("chords_short_name", .jstr "tempC")]])]

/-- Configuration with global instrument_id 42 and sensorC9 as its only
sensor. -/
def configC9 : Obj :=
  [("chords_host", .jstr "host"), ("api_email", .jstr "email"),
   ("api_key", .jstr "key"), ("instrument_id", .jnum 42),
   ("smart_sensors", .jarr [.jobj sensorC9])]

/-- Reading with model X, id 1 and a temperature, without a time field
(the timestamp falls back to the injected clock). -/
def dataXT : Obj :=
  [("model", .jstr "X"), ("id", .jnum 1), ("temperature", .jnum (mkRat 43 2))]

/-- The record submitted for dataXT under configC2 at clock 0: the
disabled sensor matched and submitted. -/
def recC2 : ChordsRecord :=
  { host := .jstr "host", inst_id := .jnum 42, api_email := .jstr "email",
    api_key := .jstr "key",
    vars := [(.jstr "at", .jnum 0), (.jstr "tempC", .jnum (mkRat 43 2))] }

/-- The record submitted for dataXT under configC9 at clock 0: despite
the present chords_inst_id 0, the instrument identity is the global 42. -/
def recC9 : ChordsRecord :=
  { host := .jstr "host", inst_id := .jnum 42, api_email := .jstr "email",
    api_key := .jstr "key",
    vars := [(.jstr "at", .jnum 0), (.jstr "tempC", .jnum (mkRat 43 2))] }

/-- A configuration that the claim says validation must reject — no
enabled flag on the sensor and a variable mapping with neither rtl_name
nor chords_short_name — but that validate_config accepts. -/
def configC6 : Obj :=
  [("smart_sensors",
    .jarr [.jobj [("model", .jstr "m"), ("id", .jnum 1),
                  ("variables", .jarr [.jobj []])]])]

/-- A sensor whose single variable mapping is the empty dict: reading its
chords_short_name raises KeyError. -/
def sensorBadVar : Obj :=
  [("model", .jstr "A"), ("id", .jnum 1),
   ("variables", .jarr [.jobj []])]

/-- A well-formed sensor matching model B, id 2, mapping v to val. -/
def sensorB : Obj :=
  [("model", .jstr "B"), ("id", .jnum 2),
   ("variables", .jarr [.jobj [("rtl_name", .jstr "v"),
                               ("chords_short_name", .jstr "val")]])]

/-- Configuration whose first sensor carries the malformed variable
mapping; it passes validate_config because the variable checks are dead
code. -/
def configC8 : Obj :=
  [("chords_host", .jstr "host"), ("api_email", .jstr "email"),
   ("api_key", .jstr "key"), ("instrument_id", .jnum 42),
   ("smart_sensors", .jarr [.jobj sensorBadVar, .jobj sensorB])]

/-- Reading matching the malformed sensorBadVar. -/
def dataA8 : Obj := [("model", .jstr "A"), ("id", .jnum 1), ("x", .jnum 5)]

/-- Reading matching the well-formed sensorB. -/
def dataB8 : Obj := [("model", .jstr "B"), ("id", .jnum 2), ("v", .jnum 5)]

/-- The record submitted for dataB8 under configC8 at clock 0. -/
def recB8 : ChordsRecord :=
  { host := .jstr "host", inst_id := .jnum 42, api_email := .jstr "email",
    api_key := .jstr "key",
    vars := [(.jstr "at", .jnum 0), (.jstr "val", .jnum 5)] }

end Fixtures

lemma jlookup_cons_of_ne (k1 k : String) (v : JValue) (rest : Obj)
    (h : k1 ≠ k) : jlookup k ((k1, v) :: rest) = jlookup k rest := by
  simp [jlookup, h]

lemma dictSet_isEmpty (m : PyDict) (k v : JValue) :
    (dictSet m k v).isEmpty = false := by
  cases m with
  | nil => rfl
  | cons a as => unfold dictSet; split <;> rfl

lemma pyEqList_refl_of (xs : List JValue)
    (h : ∀ x ∈ xs, pyEq x x = true) : pyEqList xs xs = true := by
  induction xs with
  | nil => rfl
  | cons x xs ih =>
    rw [pyEqList, Bool.and_eq_true]
    exact ⟨h x (by simp), ih fun y hy => h y (by simp [hy])⟩

lemma pyEqObjSub_of_lookup (a b : Obj)
    (h : ∀ kv ∈ a, ∃ w, jlookup kv.1 b = some w ∧ pyEq kv.2 w = true) :
    pyEqObjSub a b = true := by
  induction a with
  | nil => rfl
  | cons kv rest ih =>
    obtain ⟨k, v⟩ := kv
    obtain ⟨w, hw, he⟩ := h (k, v) (by simp)
    rw [pyEqObjSub, hw]
    simpa [he] using ih fun p hp => h p (by simp [hp])

lemma jlookup_of_mem_nodup (kvs : Obj) (k : String) (v : JValue)
    (hnd : keysNodup kvs = true) (hmem : (k, v) ∈ kvs) :
    jlookup k kvs = some v := by
  induction kvs with
  | nil => cases hmem
  | cons a rest ih =>
    obtain ⟨k1, v1⟩ := a
    rw [keysNodup, Bool.and_eq_true] at hnd
    obtain ⟨ha, hnd2⟩ := hnd
    have h1 : (rest.any fun p => p.1 = k1) = false := by
      cases hx : rest.any fun p => p.1 = k1
      · rfl
      · rw [hx] at ha; cases ha
    rcases List.mem_cons.mp hmem with heq | hm
    · obtain ⟨hk, hv⟩ := Prod.mk.injEq .. ▸ heq
      subst hk; subst hv
      simp [jlookup]
    · have hne : k1 ≠ k := by
        intro he; subst he
        have : (rest.any fun p => p.1 = k1) = true :=
          List.any_eq_true.mpr ⟨(k1, v), hm, by simp⟩
        rw [this] at h1; cases h1
      rw [jlookup, if_neg hne]
      exact ih hnd2 hm

lemma uniqueKeysList_mem (xs : List JValue) (x : JValue)
    (h : uniqueKeysList xs = true) (hx : x ∈ xs) : uniqueKeys x = true := by
  induction xs with
  | nil => cases hx
  | cons y ys ih =>
    rw [uniqueKeysList, Bool.and_eq_true] at h
    obtain ⟨h1, h2⟩ := h
    rcases List.mem_cons.mp hx with heq | hm
    · subst heq; exact h1
    · exact ih h2 hm

lemma uniqueKeysVals_mem (kvs : Obj) (k : String) (v : JValue)
    (h : uniqueKeysVals kvs = true) (hm : (k, v) ∈ kvs) :
    uniqueKeys v = true := by
  induction kvs with
  | nil => cases hm
  | cons a rest ih =>
    obtain ⟨k1, v1⟩ := a
    rw [uniqueKeysVals, Bool.and_eq_true] at h
    obtain ⟨h1, h2⟩ := h
    rcases List.mem_cons.mp hm with heq | hmm
    · obtain ⟨_, hv⟩ := Prod.mk.injEq .. ▸ heq
      subst hv; exact h1
    · exact ih h2 hmm

lemma pyEq_refl_sized : ∀ (n : ℕ) (v : JValue), sizeOf v ≤ n →
    uniqueKeys v = true → pyEq v v = true := by
  intro n
  induction n with
  | zero =>
    intro v hv _
    exact absurd hv (by cases v <;> simp_arith)
  | succ n ih =>
    intro v hsize hu
    cases v with
    | jnull => rfl
    | jbool b => simp [pyEq]
    | jnum q => simp [pyEq]
    | jstr s => simp [pyEq]
    | jarr xs =>
      rw [uniqueKeys] at hu
      rw [pyEq]
      apply pyEqList_refl_of
      intro x hx
      have hs := List.sizeOf_lt_of_mem hx
      have hsz : sizeOf (JValue.jarr xs) = 1 + sizeOf xs := by simp
      exact ih x (by omega) (uniqueKeysList_mem xs x hu hx)
    | jobj kvs =>
      rw [uniqueKeys, Bool.and_eq_true] at hu
      obtain ⟨hnd, hvals⟩ := hu
      rw [pyEq, Bool.and_eq_true]
      constructor
      · simp
      · apply pyEqObjSub_of_lookup
        intro kv hkv
        obtain ⟨k, v⟩ := kv
        refine ⟨v, jlookup_of_mem_nodup kvs k v hnd hkv, ?_⟩
        have hs := List.sizeOf_lt_of_mem hkv
        have hp : sizeOf (k, v) = 1 + sizeOf k + sizeOf v := by simp
        have hsz : sizeOf (JValue.jobj kvs) = 1 + sizeOf kvs := by simp
        exact ih v (by omega) (uniqueKeysVals_mem kvs k v hvals hkv)

/-- Python equality is reflexive on values whose nested objects all have
distinct keys — every value json.loads can produce. -/
lemma pyEq_refl (v : JValue) (hu : uniqueKeys v = true) :
    pyEq v v = true :=
  pyEq_refl_sized (sizeOf v) v le_rfl hu

lemma sensorMatches_iff (dm di : JValue) (sensor : Obj) :
    sensorMatches dm di (.jobj sensor) = true ↔
      ∃ sm sid, jlookup "model" sensor = some sm ∧
        jlookup "id" sensor = some sid ∧
        pyEq sm dm = true ∧ pyEq sid di = true := by
  constructor
  · intro h
    rw [sensorMatches] at h
    cases hm : jlookup "model" sensor with
    | none => rw [hm] at h; dsimp only at h; cases h
    | some sm =>
      cases hi : jlookup "id" sensor with
      | none => rw [hm, hi] at h; dsimp only at h; cases h
      | some sid =>
        rw [hm, hi] at h
        dsimp only at h
        rw [Bool.and_eq_true] at h
        exact ⟨sm, sid, rfl, rfl, h.1, h.2⟩
  · rintro ⟨sm, sid, hm, hi, hpm, hpi⟩
    rw [sensorMatches, hm, hi]
    dsimp only
    rw [hpm, hpi]
    rfl

lemma scanSensors_cons_skip (config : Obj) (ts : Int) (data : Obj)
    (dm di s : JValue) (rest : List JValue)
    (h : sensorSkips dm di s = true) :
    scanSensors config ts data dm di (s :: rest) =
      scanSensors config ts data dm di rest := by
  cases s with
  | jobj sensor =>
    rw [sensorSkips] at h
    rw [scanSensors]
    cases hm : jlookup "model" sensor with
    | none => rw [hm] at h; dsimp only at h; cases h
    | some sm =>
      rw [hm] at h
      dsimp only at h ⊢
      by_cases hpe : pyEq sm dm = false
      · rw [if_pos hpe]
      · rw [if_neg hpe] at h ⊢
        cases hi : jlookup "id" sensor with
        | none => rw [hi] at h; dsimp only at h; cases h
        | some sid =>
          rw [hi] at h
          dsimp only at h ⊢
          rw [if_pos (show pyEq sid di = false by simpa using h)]
  | jnull => cases h
  | jbool b => cases h
  | jnum q => cases h
  | jstr s => cases h
  | jarr xs => cases h

lemma scanSensors_append_skips (config : Obj) (ts : Int) (data : Obj)
    (dm di : JValue) (pre l : List JValue)
    (hpre : ∀ x ∈ pre, sensorSkips dm di x = true) :
    scanSensors config ts data dm di (pre ++ l) =
      scanSensors config ts data dm di l := by
  induction pre with
  | nil => rfl
  | cons x xs ih =>
    rw [List.cons_append,
        scanSensors_cons_skip config ts data dm di x (xs ++ l)
          (hpre x (by simp))]
    exact ih fun y hy => hpre y (by simp [hy])

lemma scanSensors_cons_matched (config : Obj) (ts : Int) (data : Obj)
    (dm di : JValue) (sensor : Obj) (rest : List JValue) (vs : List JValue)
    (hmatch : sensorMatches dm di (.jobj sensor) = true)
    (hvars : jlookup "variables" sensor = some (.jarr vs)) :
    scanSensors config ts data dm di (.jobj sensor :: rest) =
      match extractVars data vs [] with
      | .error e => .error e
      | .ok vars =>
        if vars.isEmpty then .ok none
        else
          match sendToChords config ts vars
              (jlookup "chords_inst_id" sensor) with
          | .error e => .error e
          | .ok rec => .ok (some rec) := by
  obtain ⟨sm, sid, hm, hi, hpm, hpi⟩ := (sensorMatches_iff dm di sensor).mp hmatch
  rw [scanSensors, hm]
  dsimp only
  rw [if_neg (by simp [hpm]), hi]
  dsimp only
  rw [if_neg (by simp [hpi]), hvars]
  dsimp only [pyIter]

lemma extractVars_wf (data : Obj) : ∀ (vs : List JValue) (acc : PyDict),
    (∀ v ∈ vs, wellFormedVar v = true) →
    ∃ out, extractVars data vs acc = .ok out ∧
      out.isEmpty = (acc.isEmpty &&
        vs.all fun v => !varSourcePresent data v) := by
  intro vs
  induction vs with
  | nil => intro acc _; exact ⟨acc, rfl, by simp⟩
  | cons v rest ih =>
    intro acc h
    have hv := h v (by simp)
    have hrest : ∀ y ∈ rest, wellFormedVar y = true :=
      fun y hy => h y (by simp [hy])
    cases v with
    | jobj vbl =>
      rw [wellFormedVar] at hv
      rw [Bool.and_eq_true] at hv
      obtain ⟨hcsn, hrn⟩ := hv
      cases hr : jlookup "rtl_name" vbl with
      | none => rw [hr] at hrn; dsimp only at hrn; cases hrn
      | some rn =>
        rw [hr] at hrn
        cases rn with
        | jstr sname =>
          cases hc : jlookup "chords_short_name" vbl with
          | none => rw [hc] at hcsn; dsimp only at hcsn; cases hcsn
          | some csn =>
            rw [hc] at hcsn
            rw [extractVars, hc]
            dsimp only
            rw [hr]
            dsimp only
            cases hlook : jlookup sname data with
            | none =>
              obtain ⟨out, ho, he⟩ := ih acc hrest
              refine ⟨out, ho, ?_⟩
              rw [he]
              have hnp : varSourcePresent data (.jobj vbl) = false := by
                rw [varSourcePresent]
                rw [hr]
                dsimp only
                rw [hlook]
                rfl
              rw [List.all_cons, hnp]
              simp
            | some value =>
              dsimp only
              rw [if_pos hcsn]
              obtain ⟨out, ho, he⟩ := ih (dictSet acc csn value) hrest
              refine ⟨out, ho, ?_⟩
              rw [he, dictSet_isEmpty]
              have hp : varSourcePresent data (.jobj vbl) = true := by
                rw [varSourcePresent]
                rw [hr]
                dsimp only
                rw [hlook]
                rfl
              rw [List.all_cons, hp]
              simp
        | jnull => dsimp only at hrn; cases hrn
        | jbool b => dsimp only at hrn; cases hrn
        | jnum q => dsimp only at hrn; cases hrn
        | jarr xs => dsimp only at hrn; cases hrn
        | jobj kvs => dsimp only at hrn; cases hrn
    | jnull => cases hv
    | jbool b => cases hv
    | jnum q => cases hv
    | jstr s => cases hv
    | jarr xs => cases hv

lemma sendToChords_ok (config : Obj) (ts : Int) (vars : PyDict)
    (ov : Option JValue) (h : wellFormedSendConfig config = true) :
    ∃ rec, sendToChords config ts vars ov = .ok rec := by
  rw [wellFormedSendConfig, Bool.and_eq_true, Bool.and_eq_true,
      Bool.and_eq_true] at h
  obtain ⟨⟨⟨h1, h2⟩, h3⟩, h4⟩ := h
  obtain ⟨gid, hg⟩ := Option.isSome_iff_exists.mp h1
  obtain ⟨em, he⟩ := Option.isSome_iff_exists.mp h2
  obtain ⟨key, hk⟩ := Option.isSome_iff_exists.mp h3
  obtain ⟨host, hh⟩ := Option.isSome_iff_exists.mp h4
  rw [sendToChords, hg]
  dsimp only
  rw [he]
  dsimp only
  rw [hk]
  dsimp only
  rw [hh]
  exact ⟨_, rfl⟩

lemma scanSensors_ok (config : Obj) (ts : Int) (data : Obj)
    (dm di : JValue) (hcfg : wellFormedSendConfig config = true) :
    ∀ ss, (∀ s ∈ ss, wellFormedSensor s = true) →
      ∃ r, scanSensors config ts data dm di ss = .ok r := by
  intro ss
  induction ss with
  | nil => exact fun _ => ⟨none, rfl⟩
  | cons s rest ih =>
    intro h
    have hs := h s (by simp)
    have hrest : ∀ y ∈ rest, wellFormedSensor y = true :=
      fun y hy => h y (by simp [hy])
    cases s with
    | jobj sensor =>
      rw [wellFormedSensor] at hs
      rw [Bool.and_eq_true, Bool.and_eq_true] at hs
      obtain ⟨⟨hm1, hi1⟩, hv1⟩ := hs
      obtain ⟨sm, hm⟩ := Option.isSome_iff_exists.mp hm1
      obtain ⟨sid, hi⟩ := Option.isSome_iff_exists.mp hi1
      rw [scanSensors, hm]
      dsimp only
      by_cases hpe : pyEq sm dm = false
      · rw [if_pos hpe]; exact ih hrest
      · rw [if_neg hpe, hi]
        dsimp only
        by_cases hpi : pyEq sid di = false
        · rw [if_pos hpi]; exact ih hrest
        · rw [if_neg hpi]
          cases hvv : jlookup "variables" sensor with
          | none => rw [hvv] at hv1; dsimp only at hv1; cases hv1
          | some vsv =>
            rw [hvv] at hv1
            cases vsv with
            | jarr vs =>
              dsimp only at hv1
              dsimp only [pyIter]
              obtain ⟨out, ho, _⟩ :=
                extractVars_wf data vs [] (List.all_eq_true.mp hv1)
              rw [ho]
              dsimp only
              cases hoe : out.isEmpty with
              | true => exact ⟨none, by rw [if_pos rfl]⟩
              | false =>
                rw [if_neg (by simp)]
                obtain ⟨rec, hrec⟩ := sendToChords_ok config ts out
                  (jlookup "chords_inst_id" sensor) hcfg
                rw [hrec]
                exact ⟨some rec, rfl⟩
            | jnull => dsimp only at hv1; cases hv1
            | jbool b => dsimp only at hv1; cases hv1
            | jnum q => dsimp only at hv1; cases hv1
            | jstr s2 => dsimp only at hv1; cases hv1
            | jobj kvs => dsimp only at hv1; cases hv1
    | jnull => cases hs
    | jbool b => cases hs
    | jnum q => cases hs
    | jstr s2 => cases hs
    | jarr xs => cases hs

lemma handleRtlData_ok (config : Obj) (now : Int) (data : Obj)
    (h : wellFormedConfig config = true) :
    ∃ r, handleRtlData config now data = .ok r := by
  rw [wellFormedConfig, Bool.and_eq_true] at h
  obtain ⟨hsend, hss⟩ := h
  cases hm : jlookup "model" data with
  | none => exact ⟨none, by rw [handleRtlData, hm]⟩
  | some dm =>
    cases hi : jlookup "id" data with
    | none => exact ⟨none, by rw [handleRtlData, hm, hi]⟩
    | some di =>
      cases hs : jlookup "smart_sensors" config with
      | none => rw [hs] at hss; dsimp only at hss; cases hss
      | some v =>
        rw [hs] at hss
        cases v with
        | jarr ss =>
          dsimp only at hss
          obtain ⟨r, hr⟩ := scanSensors_ok config
            (match jlookup "time" data with
             | some (.jstr s) => (parseIso8601 s).getD now
             | some _ => now
             | none => now) data dm di hsend ss (List.all_eq_true.mp hss)
          refine ⟨r, ?_⟩
          rw [handleRtlData, hm, hi]
          dsimp only
          rw [hs]
          dsimp only [pyIter]
          exact hr
        | jnull => dsimp only at hss; cases hss
        | jbool b => dsimp only at hss; cases hss
        | jnum q => dsimp only at hss; cases hss
        | jstr s2 => dsimp only at hss; cases hss
        | jobj kvs => dsimp only at hss; cases hss

lemma processLines_no_abort (config : Obj) (now : Int)
    (h : wellFormedConfig config = true) :
    ∀ (lines : List (Option Obj)) (prev : Obj),
      (processLines config now prev lines).2.2 = none := by
  intro lines
  induction lines with
  | nil => intro prev; rfl
  | cons line rest ih =>
    intro prev
    cases line with
    | none =>
      rw [processLines]
      dsimp only [stepLine]
      exact ih prev
    | some data =>
      rw [processLines]
      rw [stepLine]
      by_cases hdup : pyEq (.jobj data) (.jobj prev) = true
      · rw [if_pos hdup]
        exact ih data
      · rw [if_neg hdup]
        obtain ⟨r, hr⟩ := handleRtlData_ok config now data h
        rw [hr]
        dsimp only
        rw [ih data]

lemma scanSensors_cons_matched_any (config : Obj) (ts : Int) (data : Obj)
    (dm di : JValue) (sensor : Obj) (rest : List JValue)
    (hmatch : sensorMatches dm di (.jobj sensor) = true) :
    scanSensors config ts data dm di (.jobj sensor :: rest) =
      scanSensors config ts data dm di [.jobj sensor] := by
  obtain ⟨sm, sid, hm, hi, hpm, hpi⟩ :=
    (sensorMatches_iff dm di sensor).mp hmatch
  rw [scanSensors, scanSensors, hm]
  dsimp only
  rw [if_neg (show ¬pyEq sm dm = false by simp [hpm]),
      if_neg (show ¬pyEq sm dm = false by simp [hpm]), hi]
  dsimp only
  rw [if_neg (show ¬pyEq sid di = false by simp [hpi]),
      if_neg (show ¬pyEq sid di = false by simp [hpi])]

/-- C7: processing the reading with model X, id 1, temperature 21.5
(written 43/2) and time 2024-01-01T00:00:00 against the configuration
whose one sensor matches model X, id 1 and maps temperature to tempC
submits exactly one record, and its variables are at = 1704067200 and
tempC = 21.5 — for every wall-clock value now, since the parseable time
field makes the clock irrelevant. -/
theorem c7_example_record (now : Int) :
    handleRtlData config7 now data7 = .ok (some rec7) ∧
      rec7.vars = [(.jstr "at", .jnum 1704067200),
                   (.jstr "tempC", .jnum (mkRat 43 2))] :=
  ⟨by rfl, rfl⟩

/-- C10: a reading that lacks the key model or the key id makes
handleRtlData return immediately with nothing submitted, for every
configuration and clock — even configurations with no smart_sensors key
at all, which proves the catalogue is never scanned. -/
theorem c10_missing_model_or_id (data : Obj)
    (h : jlookup "model" data = none ∨ jlookup "id" data = none) :
    ∀ (config : Obj) (now : Int), handleRtlData config now data = .ok none := by
  intro config now
  rw [handleRtlData]
  rcases h with h | h
  · rw [h]
  · rw [h]
    cases hm : jlookup "model" data <;> rfl

/-- C10 witness: a reading with neither model nor id, against the empty
configuration (which would raise KeyError if the scan were attempted),
yields no submission. -/
theorem c10_witness : handleRtlData [] 0 [("foo", JValue.jnum 1)] = .ok none :=
  c10_missing_model_or_id [("foo", .jnum 1)] (Or.inl rfl) [] 0

/-- C2 counterexample: sensorC2 carries enabled = false, yet
handleRtlData matches it and submits a record — the claim that a sensor
with enabled = false is never matched is false of the code, which never
reads the enabled key. -/
theorem c2_counterexample :
    jlookup "enabled" sensorC2 = some (.jbool false) ∧
      handleRtlData configC2 0 dataXT = .ok (some recC2) :=
  ⟨rfl, rfl⟩

/-- C2 amended: the matching loop never consults the enabled key —
prepending an enabled binding with any value to any sensor leaves the
scan result unchanged on every reading and catalogue tail. -/
theorem c2_amended_enabled_ignored (config : Obj) (ts : Int) (data : Obj)
    (dm di v : JValue) (sensor : Obj) (rest : List JValue) :
    scanSensors config ts data dm di
        (.jobj (("enabled", v) :: sensor) :: rest) =
      scanSensors config ts data dm di (.jobj sensor :: rest) := by
  rw [scanSensors, scanSensors,
      jlookup_cons_of_ne "enabled" "model" v sensor (by decide),
      jlookup_cons_of_ne "enabled" "id" v sensor (by decide),
      jlookup_cons_of_ne "enabled" "variables" v sensor (by decide),
      jlookup_cons_of_ne "enabled" "chords_inst_id" v sensor (by decide)]

/-- C6 counterexample: a configuration whose only sensor has no enabled
flag and whose only variable mapping has neither rtl_name nor
chords_short_name passes validate_config — the claimed fail-fast exits
for the enabled flag and for variable fields do not happen (the variable
checks sit after sys.exit(1) and are unreachable). -/
theorem c6_counterexample : validate_config configC6 = true := rfl

/-- C6 amended: validate_config succeeds exactly when smart_sensors is
present, iterable and non-empty and every sensor is a dict with model,
id and variables keys; nothing else — neither the enabled flag nor the
contents of the variable list — is checked. -/
theorem c6_amended_validation_characterization (config : Obj) :
    validate_config config = true ↔
      ∃ v ss, jlookup "smart_sensors" config = some v ∧
        pyIter v = some ss ∧ ss ≠ [] ∧
        ∀ s ∈ ss, sensorHasRequiredKeys s = true := by
  rw [validate_config]
  cases hs : jlookup "smart_sensors" config with
  | none => simp
  | some v =>
    dsimp only
    cases hp : pyIter v with
    | none => simp [hp]
    | some ss =>
      dsimp only
      by_cases he : ss.isEmpty
      · rw [if_pos he]
        have hnil : ss = [] := by simpa using he
        subst hnil
        simp [hp]
      · rw [if_neg he, List.all_eq_true]
        have hne : ss ≠ [] := by simpa using he
        constructor
        · intro hall
          exact ⟨v, ss, rfl, hp, hne, hall⟩
        · rintro ⟨v2, ss2, hv2, hp2, _, hall⟩
          injection hv2 with hv2e
          subst hv2e
          rw [hp] at hp2
          injection hp2 with hp2e
          subst hp2e
          exact hall

/-- C5 counterexample: the PreviousReading slot is not updated after a
decode-failure line — the assignment sits after json.loads inside the
try block, so the slot still holds the previous reading. In the run
below, the third line equals the first and is discarded as a duplicate
across the malformed second line (only one record for three lines),
which is only possible because the slot was left untouched by the
malformed line, contradicting the claim that it is updated exactly once
after every line regardless of outcome. -/
theorem c5_counterexample :
    stepLine config7 0 data7 none = (data7, .decodeFail) ∧
      processLines config7 0 initial_previous_rtl_data
        [some data7, none, some data7] = (data7, [rec7], none) :=
  ⟨rfl, rfl⟩

/-- C5 amended: the slot starts as the empty dict; a decode-failure line
leaves it unchanged; a successfully decoded line sets it to the decoded
reading exactly once, after the duplicate check, whether the line was a
duplicate or was handled without an exception; a line whose handling
raises leaves the slot unchanged (and aborts the stream). -/
theorem c5_amended_previous_update (config : Obj) (now : Int) (prev : Obj) :
    initial_previous_rtl_data = ([] : Obj) ∧
      (stepLine config now prev none).1 = prev ∧
      (∀ data : Obj, pyEq (.jobj data) (.jobj prev) = true →
        (stepLine config now prev (some data)).1 = data) ∧
      (∀ (data : Obj) (r : Option ChordsRecord),
        handleRtlData config now data = .ok r →
        (stepLine config now prev (some data)).1 = data) ∧
      (∀ (data : Obj) (e : String),
        handleRtlData config now data = .error e →
        pyEq (.jobj data) (.jobj prev) = false →
        (stepLine config now prev (some data)).1 = prev) := by
  refine ⟨rfl, rfl, ?_, ?_, ?_⟩
  · intro data hp
    rw [stepLine, if_pos hp]
  · intro data r hok
    rw [stepLine]
    by_cases hp : pyEq (.jobj data) (.jobj prev) = true
    · rw [if_pos hp]
    · rw [if_neg hp, hok]
  · intro data e herr hne
    rw [stepLine, if_neg (by simp [hne]), herr]

/-- C5 amended, witness: a handled line sets the slot to the decoded
reading. -/
theorem c5_amended_witness : (stepLine config7 0 [] (some data7)).1 = data7 :=
  (c5_amended_previous_update config7 0 []).2.2.2.1 data7 (some rec7) rfl

/-- C1: the scan is decided by the first sensor in catalogue order whose
model and id compare equal to the reading's — every earlier sensor being
a well-formed non-match that the loop skips — and the catalogue after
that sensor is irrelevant: the result equals the scan of the singleton
catalogue holding only that sensor. In particular at most one sensor is
ever matched, and when the first matching sensor extracts zero variables
the result is no submission, with no fallback to later sensors. -/
theorem c1_first_match_decides (config : Obj) (ts : Int) (data : Obj)
    (dm di : JValue) (pre post : List JValue) (s : JValue)
    (hpre : ∀ x ∈ pre, sensorSkips dm di x = true)
    (hs : sensorMatches dm di s = true) :
    scanSensors config ts data dm di (pre ++ s :: post) =
      scanSensors config ts data dm di [s] := by
  rw [scanSensors_append_skips config ts data dm di pre (s :: post) hpre]
  cases s with
  | jobj sensor =>
    exact scanSensors_cons_matched_any config ts data dm di sensor post hs
  | jnull => cases hs
  | jbool b => cases hs
  | jnum q => cases hs
  | jstr s2 => cases hs
  | jarr xs => cases hs

/-- C1 witness: catalogue of a non-matching sensor, then a matching
sensor whose only variable names an absent source field, then a matching
sensor that would submit. The scan stops at the zero-variable match and
returns no submission — no fallback to the later matching sensor. -/
theorem c1_witness :
    scanSensors config7 1704067200 data7 (.jstr "X") (.jnum 1)
      ([.jobj sensorOther] ++ .jobj sensorZeroVars :: [.jobj sensor7]) =
      .ok none :=
  (c1_first_match_decides config7 1704067200 data7 (.jstr "X") (.jnum 1)
    [.jobj sensorOther] [.jobj sensor7] (.jobj sensorZeroVars)
    (by decide) (by decide)).trans rfl

/-- C3: for a matched reading (first matching sensor after a skipped
prefix) whose variable mappings are all well formed, and a configuration
carrying the submission keys, a record is submitted if and only if at
least one variable mapping's source field is present in the reading. -/
theorem c3_submit_iff_source_present (config : Obj) (ts : Int) (data : Obj)
    (dm di : JValue) (pre post : List JValue) (sensor : Obj)
    (vs : List JValue)
    (hpre : ∀ x ∈ pre, sensorSkips dm di x = true)
    (hs : sensorMatches dm di (.jobj sensor) = true)
    (hvars : jlookup "variables" sensor = some (.jarr vs))
    (hwf : ∀ v ∈ vs, wellFormedVar v = true)
    (hcfg : wellFormedSendConfig config = true) :
    (∃ rec, scanSensors config ts data dm di (pre ++ .jobj sensor :: post) =
        .ok (some rec)) ↔
      ∃ v ∈ vs, varSourcePresent data v = true := by
  rw [scanSensors_append_skips config ts data dm di pre _ hpre,
      scanSensors_cons_matched config ts data dm di sensor post vs hs hvars]
  obtain ⟨out, ho, he⟩ := extractVars_wf data vs [] hwf
  rw [ho]
  dsimp only
  rw [List.isEmpty_nil, Bool.true_and] at he
  constructor
  · rintro ⟨rec, hrec⟩
    by_cases hoe : out.isEmpty
    · rw [if_pos hoe] at hrec
      simp at hrec
    · have hoe2 : out.isEmpty = false := by
        cases h2 : out.isEmpty
        · rfl
        · exact absurd h2 hoe
      rw [hoe2] at he
      obtain ⟨v, hvm, hnv⟩ := List.all_eq_false.mp he.symm
      exact ⟨v, hvm, by simpa using hnv⟩
  · rintro ⟨v, hvm, hvp⟩
    have hall : (vs.all fun v => !varSourcePresent data v) = false := by
      rw [List.all_eq_false]
      exact ⟨v, hvm, by simp [hvp]⟩
    have hoe : out.isEmpty = false := he.trans hall
    rw [if_neg (by simp [hoe])]
    obtain ⟨rec, hrec⟩ :=
      sendToChords_ok config ts out (jlookup "chords_inst_id" sensor) hcfg
    rw [hrec]
    exact ⟨rec, rfl⟩

/-- C3 witness: data7 matched by sensor7 (whose single variable names the
present field temperature) is submitted. -/
theorem c3_witness :
    ∃ rec, scanSensors config7 0 data7 (.jstr "X") (.jnum 1)
        ([] ++ .jobj sensor7 :: []) = .ok (some rec) :=
  (c3_submit_iff_source_present config7 0 data7 (.jstr "X") (.jnum 1)
    [] [] sensor7
    [.jobj [("rtl_name", .jstr "temperature"),
            ("chords_short_name", .jstr "tempC")]]
    (by decide) (by decide) rfl (by decide) (by decide)).mpr
    ⟨.jobj [("rtl_name", .jstr "temperature"),
            ("chords_short_name", .jstr "tempC")], by simp, by decide⟩

/-- C4: a decoded reading Python-equal to the current PreviousReading is
discarded as a duplicate — not handled and not submitted — while a
reading that differs from it is always handled; the same reading on two
consecutive lines is handled once and yields exactly the one record the
first occurrence submits. (uniqueKeys holds for every json.loads
output and makes Python equality reflexive at d.) -/
theorem c4_duplicate_suppression (config : Obj) (now : Int) (prev d : Obj)
    (sub : ChordsRecord)
    (hu : uniqueKeys (.jobj d) = true)
    (hne : pyEq (.jobj d) (.jobj prev) = false)
    (hok : handleRtlData config now d = .ok (some sub)) :
    (∀ p : Obj, pyEq (.jobj d) (.jobj p) = true →
        stepLine config now p (some d) = (d, .duplicate) ∧
        processLines config now p [some d] = (d, [], none)) ∧
      stepLine config now prev (some d) = (d, .ran (.ok (some sub))) ∧
      processLines config now prev [some d, some d] = (d, [sub], none) := by
  have hstep1 : stepLine config now prev (some d) =
      (d, .ran (.ok (some sub))) := by
    rw [stepLine, if_neg (by simp [hne]), hok]
  refine ⟨?_, hstep1, ?_⟩
  · intro p hp
    have hst : stepLine config now p (some d) = (d, .duplicate) := by
      rw [stepLine, if_pos hp]
    refine ⟨hst, ?_⟩
    rw [processLines, hst]
    rfl
  · have hst2 : stepLine config now d (some d) = (d, .duplicate) := by
      rw [stepLine, if_pos (pyEq_refl _ hu)]
    rw [processLines, hstep1]
    dsimp only
    rw [processLines, hst2]
    rfl

/-- C4 witness: data7 sent twice in a row from an empty PreviousReading
yields exactly the one record rec7. -/
theorem c4_witness :
    processLines config7 0 [] [some data7, some data7] =
      (data7, [rec7], none) :=
  (c4_duplicate_suppression config7 0 [] data7 rec7 (by decide) (by decide)
    (by rfl)).2.2

/-- C8 amended: with a well-formed configuration (submission keys
present; every sensor a dict with model, id and a list of well-formed
variable mappings) no input line ever aborts the stream — not a decode
failure and not a reading with missing fields; the abort in the
counterexample requires a malformed variable mapping, which well-formed
configurations exclude (and which validate_config fails to reject). -/
theorem c8_amended_no_abort (config : Obj) (now : Int)
    (h : wellFormedConfig config = true) (lines : List (Option Obj))
    (prev : Obj) :
    (processLines config now prev lines).2.2 = none :=
  processLines_no_abort config now h lines prev

/-- C8 counterexample: configC8 passes validation, yet its first
sensor's empty variable mapping raises KeyError on the first matching
reading; the stream aborts and the well-formed second line — which alone
would submit recB8 — is never processed. -/
theorem c8_counterexample :
    validate_config configC8 = true ∧
      processLines configC8 0 [] [some dataA8, some dataB8] =
        ([], [], some "KeyError: chords_short_name") ∧
      processLines configC8 0 [] [some dataB8] = (dataB8, [recB8], none) :=
  ⟨rfl, rfl, rfl⟩

/-- C8 amended, witness: under the well-formed config7, a stream with a
malformed line, a good line and another malformed line completes without
aborting. -/
theorem c8_witness :
    (processLines config7 0 [] [none, some data7, none, some dataB8]).2.2 =
      none :=
  c8_amended_no_abort config7 0 (by decide)
    [none, some data7, none, some dataB8] []

/-- C9 counterexample: sensorC9 carries the key chords_inst_id with
value 0; the claim says the submitted record must then use 0, but the
code tests the override for truthiness, 0 is falsy, and the record is
submitted with the global instrument_id 42 instead. -/
theorem c9_counterexample :
    jlookup "chords_inst_id" sensorC9 = some (.jnum 0) ∧
      handleRtlData configC9 0 dataXT = .ok (some recC9) ∧
      recC9.inst_id = .jnum 42 ∧ recC9.inst_id ≠ .jnum 0 := by
  refine ⟨rfl, rfl, rfl, ?_⟩
  intro hcontra
  injection hcontra with hq
  norm_num at hq

/-- C9 amended: the instrument identity of a submitted record is the
matched sensor's chords_inst_id whenever that key is present with a
truthy value, and otherwise the global instrument_id — a present but
falsy override (0, empty string, false, null) falls back to the global
identity. -/
theorem c9_amended_inst_id (config : Obj) (ts : Int) (data : Obj)
    (dm di : JValue) (pre post : List JValue) (sensor : Obj)
    (vs : List JValue) (gid : JValue) (rec : ChordsRecord)
    (hpre : ∀ x ∈ pre, sensorSkips dm di x = true)
    (hs : sensorMatches dm di (.jobj sensor) = true)
    (hvars : jlookup "variables" sensor = some (.jarr vs))
    (hgid : jlookup "instrument_id" config = some gid)
    (hrun : scanSensors config ts data dm di (pre ++ .jobj sensor :: post) =
      .ok (some rec)) :
    rec.inst_id =
      match jlookup "chords_inst_id" sensor with
      | some ov => if pyTruthy ov then ov else gid
      | none => gid := by
  rw [scanSensors_append_skips config ts data dm di pre _ hpre,
      scanSensors_cons_matched config ts data dm di sensor post vs hs hvars]
    at hrun
  cases hex : extractVars data vs [] with
  | error e => rw [hex] at hrun; simp at hrun
  | ok out =>
    rw [hex] at hrun
    dsimp only at hrun
    by_cases hoe : out.isEmpty
    · rw [if_pos hoe] at hrun
      simp at hrun
    · rw [if_neg hoe] at hrun
      cases hsend : sendToChords config ts out
          (jlookup "chords_inst_id" sensor) with
      | error e => rw [hsend] at hrun; simp at hrun
      | ok rec2 =>
        rw [hsend] at hrun
        dsimp only at hrun
        injection hrun with hr1
        injection hr1 with hr2
        rw [sendToChords, hgid] at hsend
        dsimp only at hsend
        cases he : jlookup "api_email" config with
        | none => rw [he] at hsend; simp at hsend
        | some em =>
          rw [he] at hsend
          dsimp only at hsend
          cases hk : jlookup "api_key" config with
          | none => rw [hk] at hsend; simp at hsend
          | some key =>
            rw [hk] at hsend
            dsimp only at hsend
            cases hh : jlookup "chords_host" config with
            | none => rw [hh] at hsend; simp at hsend
            | some host =>
              rw [hh] at hsend
              dsimp only at hsend
              injection hsend with hrec2
              rw [← hr2, ← hrec2]

/-- C9 amended, witness: for the concrete run of the counterexample the
resolved identity equals the amended rule's value (the falsy override 0
gives the global 42). -/
theorem c9_witness :
    recC9.inst_id =
      match jlookup "chords_inst_id" sensorC9 with
      | some ov => if pyTruthy ov then ov else .jnum 42
      | none => .jnum 42 :=
  c9_amended_inst_id configC9 0 dataXT (.jstr "X") (.jnum 1) [] [] sensorC9
    [.jobj [("rtl_name", .jstr "temperature"),
            ("chords_short_name", .jstr "tempC")]]
    (.jnum 42) recC9 (by decide) (by decide) rfl rfl (by rfl)

end RtlToChords
